import Mathlib

/-
  Verification of the z5d-prime-predictor repository core against its design
  specification.  The C sources are shallowly embedded: GMP integers become
  Int or Nat, loops become structural recursion (with explicit fuel where the
  C loop is unbounded), and the external probabilistic primality test
  (mpz_probab_prime_p) becomes an oracle parameter, since it is library code
  outside the repository.
-/

namespace Z5D

/-! ## Embedding of src/c/z5d-predictor-c/src/z5d_predictor.c -/

/-- Constant Z5D_DEFAULT_PRECISION from include/z5d_predictor.h line 30. -/
def Z5D_DEFAULT_PRECISION : Nat := 320

/-- Working precision used by z5d_predict_nth_prime_mpz for its closed-form
prediction: the source initializes k_mp and pred with mpfr_init2 at
Z5D_DEFAULT_PRECISION and passes Z5D_DEFAULT_PRECISION to z5d_predict_mpfr,
independent of the index n. -/
def z5d_mpz_working_precision (_n : Nat) : Nat := Z5D_DEFAULT_PRECISION

/-- The KNOWN fast-path table of z5d_predict_nth_prime_mpz (exact values for
the benchmark grid), transcribed from the source. -/
def KNOWN : List (Nat × Int) :=
  [(1, 2), (10, 29), (100, 541), (1000, 7919), (10000, 104729),
   (100000, 1299709), (1000000, 15485863), (10000000, 179424673),
   (100000000, 2038074743), (1000000000, 22801763489),
   (10000000000, 252097800623), (100000000000, 2760727302517),
   (1000000000000, 29996224275833), (10000000000000, 323780508946331),
   (100000000000000, 3475385758524527),
   (1000000000000000, 37124508045065437),
   (10000000000000000, 394906913903735329),
   (100000000000000000, 4185296581467695669),
   (1000000000000000000, 44211790234832169331)]

/-- Linear search of the KNOWN table, as the C loop does. -/
def knownLookup (n : Nat) : Option Int :=
  match KNOWN.find? (fun e => e.fst = n) with
  | some e => some e.snd
  | none => none

/-- Model of z5d_predict_nth_prime_mpz.  The function takes the caller's
output integer (out) as explicit state and returns (return code, out value).
The prediction-plus-refinement fallback path is abstracted as a parameter
because its value flows through MPFR transcendental arithmetic; the control
flow (n = 0 guard, KNOWN table, fallback) is the code's. -/
def z5d_predict_nth_prime_mpz (fallback : Nat → Int) (n : Nat) (out : Int) :
    Int × Int :=
  if n = 0 then (-1, out)
  else
    match knownLookup n with
    | some p => (0, p)
    | none => (0, fallback n)

/-- State of a z5d_result_t structure (MPFR fields modelled as integers;
only identity of the state matters for the error-path claims). -/
structure Z5dResult where
  predicted_prime : Int
  error : Int
  iterations : Int
  converged : Int
deriving DecidableEq

/-- Model of z5d_predict_nth_prime_ex: on n = 0 it returns -1 immediately,
leaving the result structure untouched; otherwise it fills the result with
the closed-form prediction (abstracted as a parameter) and the fixed
iteration and convergence markers from the source. -/
def z5d_predict_nth_prime_ex (predict : Nat → Int) (n : Nat)
    (result : Z5dResult) : Int × Z5dResult :=
  if n = 0 then (-1, result)
  else (0, { predicted_prime := predict n, error := 0,
             iterations := 1, converged := 1 })

/-- Model of z5d_predict_nth_prime: initializes a default configuration and
delegates to z5d_predict_nth_prime_ex. -/
def z5d_predict_nth_prime (predict : Nat → Int) (n : Nat)
    (result : Z5dResult) : Int × Z5dResult :=
  z5d_predict_nth_prime_ex predict n result

/-- The SMALL_PRIMES presieve array of z5d_predictor.c (primes 3..97). -/
def SMALL_PRIMES : List Int :=
  [3, 5, 7, 11, 13, 17, 19, 23, 29, 31, 37, 41, 43, 47, 53, 59, 61, 67,
   71, 73, 79, 83, 89, 97]

/-- Loop body of divisible_by_small_prime: early 0 (false) when n equals the
prime, 1 (true) when divisible, otherwise next prime. -/
def dbspLoop (n : Int) : List Int → Bool
  | [] => false
  | p :: ps => if n = p then false else if n % p = 0 then true else dbspLoop n ps

/-- Model of divisible_by_small_prime from z5d_predictor.c. -/
def divisible_by_small_prime (n : Int) : Bool := dbspLoop n SMALL_PRIMES

/-- Model of snap_to_6k_pm1: nudge n onto a 6k plus or minus 1 residue,
backward when dir is negative, forward (or stay) otherwise.  The remainder
is mpz_fdiv_ui(n, 6), i.e. the nonnegative floor remainder, which Int.emod
computes for the positive modulus 6. -/
def snap_to_6k_pm1 (n : Int) (dir : Int) : Int :=
  let r := n % 6
  let delta : Int :=
    if dir < 0 then
      if r = 0 then 1 else if r = 2 then 1 else if r = 3 then 2
      else if r = 4 then 3 else 0
    else
      if r = 0 then 1 else if r = 2 then 3 else if r = 3 then 2
      else if r = 4 then 1 else 0
  if 0 < delta then (if dir < 0 then n - delta else n + delta) else n

/-- The probable-prime acceptance test used at every return site of
refine_to_prime: presieve plus mpz_probab_prime_p at 25 and at 50 rounds.
The oracle pp t r models (mpz_probab_prime_p(t, r) greater than 0). -/
def quickOk (pp : Int → Nat → Bool) (t : Int) : Bool :=
  !divisible_by_small_prime t && pp t 25 && pp t 50

/-- Candidate construction of one (step, dir) probe of the windowed local
search in refine_to_prime: offset, parity nudge, 6k snap, floor at 3.
Returns none when the probe is skipped (backward underflow or below 3). -/
def localCandidate (c : Int) (step : Nat) (dir : Int) : Option Int :=
  if 0 < dir then
    let t := c + (step : Int)
    let t := if t % 2 = 0 then t + 1 else t
    let t := snap_to_6k_pm1 t 1
    if t < 3 then none else some t
  else
    if c ≤ (step : Int) then none
    else
      let t := c - (step : Int)
      let t := if t % 2 = 0 then t - 1 else t
      let t := snap_to_6k_pm1 t (-1)
      if t < 3 then none else some t

/-- One directional probe: build the candidate and accept it when it passes
the probable-prime test. -/
def tryDir (pp : Int → Nat → Bool) (c : Int) (step : Nat) (dir : Int) :
    Option Int :=
  match localCandidate c step dir with
  | some t => if quickOk pp t then some t else none
  | none => none

/-- Windowed symmetric local search of refine_to_prime: steps 1..bw, forward
probe then backward probe at each step.  Structural recursion on the number
of remaining steps. -/
def localSearch (pp : Int → Nat → Bool) (c : Int) :
    Nat → Nat → Option Int
  | 0, _ => none
  | remaining + 1, step =>
    match tryDir pp c step 1 with
    | some t => some t
    | none =>
      match tryDir pp c step (-1) with
      | some t => some t
      | none => localSearch pp c remaining (step + 1)

/-- Unbounded forward scan of refine_to_prime, given explicit fuel (the C
loop has no bound).  Each round advances by 2, snaps forward to 6k plus or
minus 1, and accepts on presieve plus both probabilistic rounds. -/
def forwardScan (pp : Int → Nat → Bool) : Nat → Int → Option Int
  | 0, _ => none
  | fuel + 1, t =>
    let t := snap_to_6k_pm1 (t + 2) 1
    if divisible_by_small_prime t then forwardScan pp fuel t
    else if pp t 25 && pp t 50 then some t
    else forwardScan pp fuel t

/-- Tail of refine_to_prime once the initial candidate is prepared: quick
check, then windowed local search, then forward scan. -/
def refineFromCandidate (pp : Int → Nat → Bool) (fuel bw : Nat) (c : Int) :
    Option Int :=
  if quickOk pp c then some c
  else
    match localSearch pp c bw 1 with
    | some t => some t
    | none => forwardScan pp fuel c

/-- Model of refine_to_prime.  c0 is the rounded estimate mpfr_get_z(x0);
lnCeil is the integer value of ceil(4 * ln x0) obtained from MPFR (a
parameter, since it flows through floating point); fuel bounds the final
forward scan.  Returns none only on fuel exhaustion. -/
def refine_to_prime (pp : Int → Nat → Bool) (fuel : Nat) (lnCeil : Int)
    (c0 : Int) : Option Int :=
  let c1 := if c0 < 3 then 3 else c0
  let c2 := if c1 % 2 = 0 then c1 + 1 else c1
  refineFromCandidate pp fuel
    ((if lnCeil < 256 then (256 : Int) else lnCeil).toNat)
    (snap_to_6k_pm1 c2 1)

/-! ## Embedding of src/c/prime-generator/prime_generator.c -/

/-- The wheel30 array of prime_generator.c paired with its per-position gap
table wheel30_gaps, exactly as in the source: positions
{1,11,13,17,19,23,29,31} and gaps {10,2,4,2,4,6,2,6}. -/
def wheel30_pairs : List (Nat × Nat) :=
  [(1, 10), (11, 2), (13, 4), (17, 2), (19, 4), (23, 6), (29, 2), (31, 6)]

/-- Loop of align_wheel30_candidate: walk the wheel positions; stay on an
exact match, jump up to the next larger position, and past the last position
jump to the next 30-block plus 1.  Returns the increment added to the
candidate. -/
def alignDelta (m : Nat) : List (Nat × Nat) → Nat
  | [] => 30 - m + 1
  | (w, _) :: rest =>
    if m = w then 0 else if m < w then w - m else alignDelta m rest

/-- Model of align_wheel30_candidate (mpz candidate is nonnegative in the
scanning context, so Nat). -/
def align_wheel30_candidate (n : Nat) : Nat := n + alignDelta (n % 30) wheel30_pairs

/-- Loop of next_wheel30_candidate: on an exact wheel position add the
tabulated gap, below a position jump up to it, past the last position jump
to the next 30-block plus 1. -/
def nextGap (m : Nat) : List (Nat × Nat) → Nat
  | [] => 30 - m + 1
  | (w, g) :: rest =>
    if m = w then g else if m < w then w - m else nextGap m rest

/-- Model of next_wheel30_candidate. -/
def next_wheel30_candidate (n : Nat) : Nat := n + nextGap (n % 30) wheel30_pairs

/-- The small_primes array of lucas_prefilter_gmp. -/
def LUCAS_PRIMES : List Nat := [7, 11, 13, 17, 19, 23, 29, 31, 37, 41, 43, 47]

/-- Loop of lucas_prefilter_gmp: divisibility by a listed prime rejects the
candidate unless the candidate equals that prime. -/
def lucasLoop (n : Nat) : List Nat → Bool
  | [] => true
  | p :: ps => if n % p = 0 then (if n = p then true else false) else lucasLoop n ps

/-- Model of lucas_prefilter_gmp. -/
def lucas_prefilter_gmp (n : Nat) : Bool := lucasLoop n LUCAS_PRIMES

/-- Fuelled bit-length helper (mpz_sizeinbase(n,2) for positive n); the fuel
argument makes the recursion structural, and fuel n is always enough since
the argument at least halves each round. -/
def bitlenAux : Nat → Nat → Nat
  | 0, _ => 0
  | fuel + 1, n => if n = 0 then 0 else bitlenAux fuel (n / 2) + 1

/-- Bit length of n: number of binary digits, 0 for 0. -/
def bitlen (n : Nat) : Nat := bitlenAux n n

/-- Round selection of is_prime_mr_gmp from the bit size of n. -/
def mrReps (bits : Nat) : Nat :=
  if bits ≤ 64 then 10 else if bits ≤ 512 then 25
  else if bits ≤ 4096 then 40 else 64

/-- Model of is_prime_mr_gmp.  The oracle mr n reps models
(mpz_probab_prime_p(n, reps) greater than 0); the deterministic 2/3/5
pre-checks are the code's. -/
def is_prime_mr_gmp (mr : Nat → Nat → Bool) (n : Nat) : Bool :=
  if n < 2 then false
  else if n = 2 ∨ n = 3 ∨ n = 5 then true
  else if n % 2 = 0 then false
  else if n % 3 = 0 then false
  else if n % 5 = 0 then false
  else mr n (mrReps (bitlen n))

/-- Main loop of next_prime_from: Lucas pre-filter then Miller-Rabin on each
wheel candidate, advancing with next_wheel30_candidate; fuel bounds the
unbounded C loop (none on exhaustion). -/
def nextPrimeLoop (mr : Nat → Nat → Bool) : Nat → Nat → Option Nat
  | 0, _ => none
  | fuel + 1, cand =>
    if !lucas_prefilter_gmp cand then nextPrimeLoop mr fuel (next_wheel30_candidate cand)
    else if is_prime_mr_gmp mr cand then some cand
    else nextPrimeLoop mr fuel (next_wheel30_candidate cand)

/-- Model of next_prime_from: align the start onto the wheel, then loop. -/
def next_prime_from (mr : Nat → Nat → Bool) (fuel : Nat) (start : Nat) :
    Option Nat :=
  nextPrimeLoop mr fuel (align_wheel30_candidate start)

/-- Fuelled population count (mpz_popcount); fuel n suffices since the
argument at least halves each round. -/
def popcountAux : Nat → Nat → Nat
  | 0, _ => 0
  | fuel + 1, n => if n = 0 then 0 else n % 2 + popcountAux fuel (n / 2)

/-- Population count of the binary representation of n. -/
def popcount (n : Nat) : Nat := popcountAux n n

/-- Lucas-Lehmer iteration of is_mersenne_prime_ll: k rounds of
s := (s * s - 2) mod Mp, with the nonnegative remainder GMP mpz_mod
produces for a positive modulus (Int.emod). -/
def llIter (Mp : Int) : Nat → Int → Int
  | 0, s => s
  | k + 1, s => llIter Mp k ((s * s - 2) % Mp)

/-- Model of is_mersenne_prime_ll. -/
def is_mersenne_prime_ll (p : Nat) : Bool :=
  if p = 2 then true
  else if p < 2 then false
  else decide (llIter ((2 : Int) ^ p - 1) (p - 2) 4 = 0)

/-- Model of detect_mersenne_and_test: reject below 3, require n + 1 to have
a single set bit, derive the exponent from the bit size, and run the
Lucas-Lehmer test. -/
def detect_mersenne_and_test (n : Nat) : Bool :=
  if n < 3 then false
  else
    let t := n + 1
    if popcount t ≠ 1 then false
    else is_mersenne_prime_ll (bitlen t - 1)

/-! ## Embedding of src/c/z5d-mersenne/z5d_mersenne.c -/

/-- The wheel_30 offsets array of z5d_mersenne.c (the full coprime set,
unlike the generator wheel above). -/
def mersenne_wheel_30 : List Nat := [1, 7, 11, 13, 17, 19, 23, 29]

/-- Center alignment step of scan_prime_count: make the center congruent to
the selected wheel offset, moving forward by less than one modulus.  The
remainder is mpz_fdiv_ui (nonnegative floor remainder, Int.emod). -/
def alignCenter (center : Int) (modulus wheelOffset : Nat) : Int :=
  if center % (modulus : Int) = (wheelOffset : Int) then center
  else if (wheelOffset : Int) - center % (modulus : Int) < 0 then
    center + ((wheelOffset : Int) - center % (modulus : Int) + (modulus : Int))
  else
    center + ((wheelOffset : Int) - center % (modulus : Int))

/-- Mutable state of the scan loop in scan_prime_count: the prime counter,
the found_primes array (as the list of stored primes), and the trace of
every candidate subjected to the primality guard. -/
structure ScanSt where
  count : Nat
  found : List Int
  tested : List Int
deriving DecidableEq

/-- One candidate test of scan_prime_count: record the candidate, and store
it as found when it exceeds 3 and the Miller-Rabin oracle accepts it. -/
def scanTest (mrO : Int → Bool) (t : Int) (st : ScanSt) : ScanSt :=
  let st := { st with tested := st.tested ++ [t] }
  if 3 < t ∧ mrO t then
    { st with count := st.count + 1, found := st.found ++ [t] }
  else st

/-- Modulus of unsigned long arithmetic (64-bit). -/
def ULONG_MOD : Nat := 2 ^ 64

/-- The candidate displacement of scan_prime_count: the source computes
offset * wheel->modulus in unsigned long, so the product wraps mod 2 to the
64 before being fed to mpz_add_ui / mpz_sub_ui. -/
def scanDisp (offset modulus : Nat) : Nat := offset * modulus % ULONG_MOD

/-- One offset iteration of the scan loop: forward candidate
center + scanDisp, then, for positive offset and remaining capacity,
backward candidate center - scanDisp (mpz addition and subtraction of the
wrapped unsigned-long displacement are exact). -/
def scanIter (mrO : Int → Bool) (center : Int) (modulus maxPrimes : Nat)
    (offset : Nat) (st : ScanSt) : ScanSt :=
  let st1 := scanTest mrO (center + (scanDisp offset modulus : Int)) st
  if 0 < offset ∧ st1.count < maxPrimes then
    scanTest mrO (center - (scanDisp offset modulus : Int)) st1
  else st1

/-- The offset loop of scan_prime_count, one unfolding per fuel unit:
(for offset = 0; offset <= window && count < max_primes; offset += step),
with offset a wrapping unsigned long, so offset += step is taken mod 2 to
the 64 and the loop need not terminate (for step = 0, or window close to
the unsigned-long maximum); the fuel-indexed state is the exact state of
the C loop after that many iterations. -/
def scanLoop (mrO : Int → Bool) (center : Int)
    (modulus maxPrimes window step : Nat) : Nat → Nat → ScanSt → ScanSt
  | 0, _, st => st
  | fuel + 1, offset, st =>
    if offset ≤ window ∧ st.count < maxPrimes then
      scanLoop mrO center modulus maxPrimes window step fuel
        ((offset + step) % ULONG_MOD)
        (scanIter mrO center modulus maxPrimes offset st)
    else st

/-- Model of scan_prime_count.  center0 is the integer rounding of the MPFR
prediction; wheelOffset is the single wheel residue selected for this scan
(the source cycles a static index through the wheel offsets across calls);
the oracle mrO t models (miller_rabin_test(t, mr_rounds) at least 1); fuel
bounds the number of loop iterations unfolded. -/
def scan_prime_count (mrO : Int → Bool) (center0 : Int)
    (window step modulus wheelOffset maxPrimes fuel : Nat) : ScanSt :=
  let center := alignCenter center0 modulus wheelOffset
  scanLoop mrO center modulus maxPrimes window step fuel 0
    { count := 0, found := [], tested := [] }

/-- Parameter adjustment of one auto_tune_scan iteration, from the count
comparison chain in the source: lock leaves parameters unchanged (the loop
breaks), zero count expands the window below 10000 and otherwise decrements
the step toward 1, and an overshoot shrinks the window while it exceeds
twice the step and otherwise increments the step. -/
def tune_adjust (target count : Nat) (ws : Nat × Nat) : Nat × Nat :=
  let window := ws.fst
  let step := ws.snd
  if count = target then ws
  else if count = 0 then
    if window < 10000 then (window * 3 / 2, step)
    else (window, if 1 < step then step - 1 else 1)
  else if target < count then
    if step * 2 < window then (window * 2 / 3, step)
    else (window, step + 1)
  else ws

/-! ## Auxiliary definitions for concrete witnesses -/

/-- Trial-division primality, used to instantiate the probabilistic oracles
at small concrete inputs (GMP's test is exact there). -/
def trialDivPrime (n : Nat) : Bool :=
  Nat.ble 2 n && (List.range n).all (fun d => decide (d < 2) || decide (n % d ≠ 0))

/-- Boolean form of the presieve guarantee: every listed prime either does
not divide p or equals p. -/
def passes_presieve (p : Int) : Bool :=
  SMALL_PRIMES.all (fun q => decide (p % q ≠ 0) || decide (p = q))

/-! ## Theorems -/

/-- Claim C1: z5d_predict_nth_prime_mpz returns 0 and writes exactly 541,
7919, 104729 and 22801763489 for the indices 100, 1000, 10000 and
1000000000, for every fallback predictor and every prior value of the
output integer (the values come from the KNOWN fast-path table). -/
theorem C1_known_values : ∀ (fallback : Nat → Int) (out : Int),
    z5d_predict_nth_prime_mpz fallback 100 out = (0, 541) ∧
    z5d_predict_nth_prime_mpz fallback 1000 out = (0, 7919) ∧
    z5d_predict_nth_prime_mpz fallback 10000 out = (0, 104729) ∧
    z5d_predict_nth_prime_mpz fallback 1000000000 out = (0, 22801763489) := by
  intro fallback out
  exact ⟨rfl, rfl, rfl, rfl⟩

/-- Claim C2 (failing-input evidence): the wheel advance of
prime_generator.c moves a candidate congruent to 1 mod 30 forward by 10 to
residue 11, not by 6 to residue 7, and the scanner therefore skips the
wheel-coprime residue 7 entirely: started at the prime 37 (which is 7 mod
30 and coprime to 30), next_prime_from returns 41 instead of 37. -/
theorem C2_wheel_skips_residue_seven :
    next_wheel30_candidate 31 = 41 ∧
    align_wheel30_candidate 37 = 41 ∧
    next_prime_from (fun n _ => trialDivPrime n) 5 37 = some 41 ∧
    Nat.Prime 37 ∧ 37 % 30 = 7 ∧ Nat.gcd 7 30 = 1 := by
  refine ⟨by decide, by decide, by decide, by norm_num, by decide, by decide⟩

/-- Claim C6 (counterexample): the working precision of
z5d_predict_nth_prime_mpz is 320 bits at index 100, which is below the
bit-length of 100 plus 2048, and it is the same constant at index 10 to the
18 as at index 1, so it does not grow with n. -/
theorem C6_fixed_precision_counterexample :
    z5d_mpz_working_precision 100 = 320 ∧
    ¬ (bitlen 100 + 2048 ≤ z5d_mpz_working_precision 100) ∧
    z5d_mpz_working_precision (10 ^ 18) = z5d_mpz_working_precision 1 := by
  exact ⟨rfl, by decide, rfl⟩

/-- Claim C6 (amended): the working precision used by the closed-form
prediction inside z5d_predict_nth_prime_mpz is the fixed constant
Z5D_DEFAULT_PRECISION = 320 bits for every index n. -/
theorem C6_precision_is_constant :
    ∀ n : Nat, z5d_mpz_working_precision n = Z5D_DEFAULT_PRECISION ∧
      Z5D_DEFAULT_PRECISION = 320 :=
  fun _ => ⟨rfl, rfl⟩

/-- Claim C7 (counterexample): in the zero-count branch of the auto-tune
loop with target 1, the adjustment applied at window = 1 leaves the window
at 1 (integer division: 1 * 3 / 2 = 1), so repeated zero-count adjustments
do not strictly increase the window. -/
theorem C7_window_one_stuck :
    tune_adjust 1 0 (1, 2) = (1, 2) ∧
    ¬ (1 < (tune_adjust 1 0 (1, 2)).fst) := by
  decide

/-- Claim C7 (amended): for a nonzero target count, the zero-count
adjustment never decreases the window; it strictly increases the window
whenever 2 ≤ window < 10000, and leaves the window unchanged once the
window has reached 10000 (the step is decreased instead). -/
theorem C7_zero_count_window_monotone (target window step : Nat)
    (htar : target ≠ 0) :
    window ≤ (tune_adjust target 0 (window, step)).fst ∧
    (2 ≤ window → window < 10000 →
      window < (tune_adjust target 0 (window, step)).fst) ∧
    (10000 ≤ window → (tune_adjust target 0 (window, step)).fst = window) := by
  simp only [tune_adjust]
  split_ifs with h1 h2 h3 <;>
    first
      | exact absurd h1.symm htar
      | exact ⟨by omega, by omega, by omega⟩

/-- Witness for C7_zero_count_window_monotone at target 1, window 4,
step 2: the adjusted window is at least 4 and strictly larger than 4. -/
theorem C7_zero_count_window_monotone_witness :
    4 ≤ (tune_adjust 1 0 (4, 2)).fst ∧ 4 < (tune_adjust 1 0 (4, 2)).fst :=
  ⟨(C7_zero_count_window_monotone 1 4 2 (by norm_num)).1,
   (C7_zero_count_window_monotone 1 4 2 (by norm_num)).2.1 (by norm_num)
     (by norm_num)⟩

/-- Residues mod 30 reachable by the generator wheel: any advance of
next_wheel30_candidate lands on one of {1,11,13,17,19,23,29}. -/
lemma next_wheel30_mod30 (n : Nat) :
    next_wheel30_candidate n % 30 ∈ ([1, 11, 13, 17, 19, 23, 29] : List Nat) := by
  have key : ∀ r, r < 30 →
      (r + nextGap r wheel30_pairs % 30) % 30 ∈
        ([1, 11, 13, 17, 19, 23, 29] : List Nat) := by decide
  unfold next_wheel30_candidate
  rw [Nat.add_mod]
  exact key (n % 30) (Nat.mod_lt _ (by norm_num))

/-- The alignment step also lands on one of the reachable residues. -/
lemma align_wheel30_mod30 (n : Nat) :
    align_wheel30_candidate n % 30 ∈ ([1, 11, 13, 17, 19, 23, 29] : List Nat) := by
  have key : ∀ r, r < 30 →
      (r + alignDelta r wheel30_pairs % 30) % 30 ∈
        ([1, 11, 13, 17, 19, 23, 29] : List Nat) := by decide
  unfold align_wheel30_candidate
  rw [Nat.add_mod]
  exact key (n % 30) (Nat.mod_lt _ (by norm_num))

/-- Any value the scan loop of next_prime_from returns keeps the residue
invariant it entered with, since every advance re-establishes it. -/
lemma nextPrimeLoop_mod30 (mr : Nat → Nat → Bool) :
    ∀ fuel cand p, cand % 30 ∈ ([1, 11, 13, 17, 19, 23, 29] : List Nat) →
      nextPrimeLoop mr fuel cand = some p →
      p % 30 ∈ ([1, 11, 13, 17, 19, 23, 29] : List Nat) := by
  intro fuel
  induction fuel with
  | zero => intro cand p _ h; exact absurd h (by simp [nextPrimeLoop])
  | succ f ih =>
    intro cand p hc h
    unfold nextPrimeLoop at h
    split at h
    · exact ih _ p (next_wheel30_mod30 cand) h
    · split at h
      · obtain rfl : cand = p := by injection h
        exact hc
      · exact ih _ p (next_wheel30_mod30 cand) h

/-- Claim C3: every value returned by next_prime_from is congruent mod 30
to one of the wheel residues {1,7,11,13,17,19,23,29} (the code in fact only
ever produces {1,11,13,17,19,23,29}, a subset). -/
theorem C3_next_prime_wheel_residue (mr : Nat → Nat → Bool)
    (fuel start p : Nat) (h : next_prime_from mr fuel start = some p) :
    p % 30 ∈ ([1, 7, 11, 13, 17, 19, 23, 29] : List Nat) := by
  have hmem := nextPrimeLoop_mod30 mr fuel (align_wheel30_candidate start) p
    (align_wheel30_mod30 start) h
  simp only [List.mem_cons, List.mem_singleton] at hmem ⊢
  tauto

/-- Witness for C3_next_prime_wheel_residue: from start 100 the scanner
returns 101, and 101 mod 30 = 11 is in the wheel set. -/
theorem C3_next_prime_wheel_residue_witness :
    101 % 30 ∈ ([1, 7, 11, 13, 17, 19, 23, 29] : List Nat) :=
  C3_next_prime_wheel_residue (fun n _ => trialDivPrime n) 5 100 101 (by decide)

/-- A zero argument makes the fuelled popcount zero for any fuel. -/
lemma popcountAux_zero : ∀ fuel, popcountAux fuel 0 = 0 := by
  intro fuel; cases fuel <;> simp [popcountAux]

/-- Powers of two have population count one, for any sufficient fuel. -/
lemma popcountAux_two_pow : ∀ p fuel, 2 ^ p ≤ fuel → popcountAux fuel (2 ^ p) = 1 := by
  intro p
  induction p with
  | zero =>
    intro fuel hf
    cases fuel with
    | zero => omega
    | succ f => simp [popcountAux, popcountAux_zero]
  | succ q ih =>
    intro fuel hf
    have h2 : 2 ^ (q + 1) = 2 ^ q * 2 := by rw [Nat.pow_succ]
    have hpos : 0 < 2 ^ q := Nat.pos_pow_of_pos q (by norm_num)
    cases fuel with
    | zero => omega
    | succ f =>
      have hne : 2 ^ (q + 1) ≠ 0 := by positivity
      have hdiv : 2 ^ (q + 1) / 2 = 2 ^ q := by omega
      have hmod : 2 ^ (q + 1) % 2 = 0 := by omega
      have hle : 2 ^ q ≤ f := by omega
      simp [popcountAux, hne, hdiv, hmod, ih f hle]

/-- Population count of a power of two is one. -/
lemma popcount_two_pow (p : Nat) : popcount (2 ^ p) = 1 :=
  popcountAux_two_pow p (2 ^ p) le_rfl

/-- Powers of two have bit length exponent plus one, for sufficient fuel. -/
lemma bitlenAux_two_pow : ∀ p fuel, 2 ^ p ≤ fuel → bitlenAux fuel (2 ^ p) = p + 1 := by
  intro p
  induction p with
  | zero =>
    intro fuel hf
    cases fuel with
    | zero => omega
    | succ f => cases f <;> simp [bitlenAux]
  | succ q ih =>
    intro fuel hf
    have h2 : 2 ^ (q + 1) = 2 ^ q * 2 := by rw [Nat.pow_succ]
    have hpos : 0 < 2 ^ q := Nat.pos_pow_of_pos q (by norm_num)
    cases fuel with
    | zero => omega
    | succ f =>
      have hne : 2 ^ (q + 1) ≠ 0 := by positivity
      have hdiv : 2 ^ (q + 1) / 2 = 2 ^ q := by omega
      have hle : 2 ^ q ≤ f := by omega
      simp [bitlenAux, hne, hdiv, ih f hle]

/-- Bit length of a power of two. -/
lemma bitlen_two_pow (p : Nat) : bitlen (2 ^ p) = p + 1 :=
  bitlenAux_two_pow p (2 ^ p) le_rfl

/-- Claim C4: the Mersenne detector answers true on 3, false on 2047 and
true on 8191; and for every n whose successor is a power of two with
exponent p at least 3, it answers true exactly when the Lucas-Lehmer
residue after p - 2 squaring steps from 4 modulo 2 to the p minus 1
vanishes. -/
theorem C4_mersenne_detector :
    detect_mersenne_and_test 3 = true ∧
    detect_mersenne_and_test 2047 = false ∧
    detect_mersenne_and_test 8191 = true ∧
    ∀ n p : Nat, 3 ≤ p → n + 1 = 2 ^ p →
      (detect_mersenne_and_test n = true ↔
        llIter ((2 : Int) ^ p - 1) (p - 2) 4 = 0) := by
  refine ⟨by decide, by decide, by decide, ?_⟩
  intro n p hp hn
  have h8 : 8 ≤ 2 ^ p := by
    calc (8 : Nat) = 2 ^ 3 := by norm_num
    _ ≤ 2 ^ p := Nat.pow_le_pow_right (by norm_num) hp
  unfold detect_mersenne_and_test
  rw [if_neg (by omega)]
  rw [hn, if_neg (by simp [popcount_two_pow]), bitlen_two_pow,
    Nat.add_sub_cancel]
  unfold is_mersenne_prime_ll
  rw [if_neg (by omega), if_neg (by omega)]
  exact decide_eq_true_iff

/-- Witness for C4_mersenne_detector at n = 8191, p = 13. -/
theorem C4_mersenne_detector_witness :
    detect_mersenne_and_test 8191 = true ↔
      llIter ((2 : Int) ^ 13 - 1) (13 - 2) 4 = 0 :=
  C4_mersenne_detector.2.2.2 8191 13 (by norm_num) (by norm_num)

/-- Unfolding of the acceptance test used at the refinement return sites. -/
lemma quickOk_spec (pp : Int → Nat → Bool) (t : Int) (h : quickOk pp t = true) :
    divisible_by_small_prime t = false ∧ pp t 25 = true ∧ pp t 50 = true := by
  simp only [quickOk, Bool.and_eq_true, Bool.not_eq_true'] at h
  exact ⟨h.1.1, h.1.2, h.2⟩

/-- A directional probe only succeeds on a candidate passing the test. -/
lemma tryDir_spec (pp : Int → Nat → Bool) (c : Int) (step : Nat) (dir t : Int)
    (h : tryDir pp c step dir = some t) : quickOk pp t = true := by
  unfold tryDir at h
  split at h
  · split at h
    · obtain rfl : _ = t := by injection h
      assumption
    · exact absurd h (by simp)
  · exact absurd h (by simp)

/-- The windowed local search only returns candidates passing the test. -/
lemma localSearch_spec (pp : Int → Nat → Bool) (c : Int) :
    ∀ remaining step t, localSearch pp c remaining step = some t →
      quickOk pp t = true := by
  intro remaining
  induction remaining with
  | zero => intro step t h; exact absurd h (by simp [localSearch])
  | succ r ih =>
    intro step t h
    unfold localSearch at h
    split at h
    · injection h with h2; subst h2
      exact tryDir_spec pp c step 1 _ (by assumption)
    · split at h
      · injection h with h2; subst h2
        exact tryDir_spec pp c step (-1) _ (by assumption)
      · exact ih (step + 1) t h

/-- The forward scan only returns values that pass the presieve and both
probabilistic rounds. -/
lemma forwardScan_spec (pp : Int → Nat → Bool) :
    ∀ fuel t0 t, forwardScan pp fuel t0 = some t →
      divisible_by_small_prime t = false ∧ pp t 25 = true ∧ pp t 50 = true := by
  intro fuel
  induction fuel with
  | zero => intro t0 t h; exact absurd h (by simp [forwardScan])
  | succ f ih =>
    intro t0 t h
    simp only [forwardScan] at h
    split at h
    · exact ih _ t h
    · split at h
      · injection h with h2; subst h2
        rename_i hdiv hpp
        simp only [Bool.and_eq_true] at hpp
        exact ⟨by simpa using hdiv, hpp.1, hpp.2⟩
      · exact ih _ t h

/-- Soundness of the presieve loop for a pairwise-indivisible prime list:
a false verdict means every listed prime dividing n equals n. -/
lemma dbspLoop_sound :
    ∀ L : List Int, (∀ a ∈ L, ∀ b ∈ L, a % b = 0 → a = b) →
      ∀ n : Int, dbspLoop n L = false →
        ∀ q ∈ L, n % q = 0 → n = q := by
  intro L
  induction L with
  | nil => intro _ n _ q hq; exact absurd hq (by simp)
  | cons p ps ih =>
    intro hpair n h q hq hdvd
    by_cases hnp : n = p
    · subst hnp
      rcases List.mem_cons.mp hq with rfl | hq'
      · rfl
      · exact hpair n (by simp) q (by simp [hq']) hdvd
    · have h2 : dbspLoop n (p :: ps) =
          (if n % p = 0 then true else dbspLoop n ps) := by
        simp [dbspLoop, hnp]
      rw [h2] at h
      by_cases hmod : n % p = 0
      · simp [hmod] at h
      · simp only [hmod, if_false] at h
        rcases List.mem_cons.mp hq with rfl | hq'
        · exact absurd hdvd hmod
        · exact ih (fun a ha b hb => hpair a (by simp [ha]) b (by simp [hb]))
            n h q hq' hdvd

/-- The SMALL_PRIMES list is pairwise indivisible. -/
lemma SMALL_PRIMES_pairwise :
    ∀ a ∈ SMALL_PRIMES, ∀ b ∈ SMALL_PRIMES, a % b = 0 → a = b := by
  decide

/-- A false presieve verdict yields the Boolean presieve guarantee. -/
lemma dbsp_false_passes (n : Int) (h : divisible_by_small_prime n = false) :
    passes_presieve n = true := by
  have hs := dbspLoop_sound SMALL_PRIMES SMALL_PRIMES_pairwise n h
  unfold passes_presieve
  rw [List.all_eq_true]
  intro q hq
  by_cases hd : n % q = 0
  · simp [hs q hq hd]
  · simp [hd]

/-- Claim C5: whenever the refinement layer returns (quick check, bounded
symmetric local search, or forward scan), the returned value is not
divisible by any presieve prime except itself and passes the probabilistic
test at both 25 and 50 rounds. -/
theorem C5_refine_guarantee (pp : Int → Nat → Bool) (fuel : Nat)
    (lnCeil c0 p : Int) (h : refine_to_prime pp fuel lnCeil c0 = some p) :
    divisible_by_small_prime p = false ∧ passes_presieve p = true ∧
      pp p 25 = true ∧ pp p 50 = true := by
  have core : ∀ bw c, refineFromCandidate pp fuel bw c = some p →
      divisible_by_small_prime p = false ∧ pp p 25 = true ∧
        pp p 50 = true := by
    intro bw c hc
    unfold refineFromCandidate at hc
    split at hc
    · injection hc with h2; subst h2
      exact quickOk_spec pp _ (by assumption)
    · split at hc
      · injection hc with h2; subst h2
        rename_i heq
        exact quickOk_spec pp _ (localSearch_spec pp _ _ _ _ heq)
      · exact forwardScan_spec pp fuel _ p hc
  have main := core _ _ h
  exact ⟨main.1, dbsp_false_passes p main.1, main.2.1, main.2.2⟩

/-- Witness for C5_refine_guarantee: with an always-accepting oracle and
estimate 5, refinement returns 5 on the quick path, and 5 satisfies the
guarantee. -/
theorem C5_refine_guarantee_witness :
    divisible_by_small_prime 5 = false ∧ passes_presieve 5 = true ∧
      (fun (_ : Int) (_ : Nat) => true) (5 : Int) 25 = true ∧
      (fun (_ : Int) (_ : Nat) => true) (5 : Int) 50 = true :=
  C5_refine_guarantee (fun _ _ => true) 0 0 5 5 (by decide)

/-- A single candidate test appends exactly the candidate to the trace. -/
lemma scanTest_tested (mrO : Int → Bool) (t : Int) (st : ScanSt) :
    (scanTest mrO t st).tested = st.tested ++ [t] := by
  simp only [scanTest]
  split <;> rfl

/-- Candidates traced by one offset iteration are the prior trace plus the
two symmetric candidates at the wrapped displacement of that offset. -/
lemma scanIter_tested (mrO : Int → Bool) (c : Int) (m mp o : Nat)
    (st : ScanSt) :
    ∀ x ∈ (scanIter mrO c m mp o st).tested,
      x ∈ st.tested ∨ x = c + (scanDisp o m : Int) ∨
        x = c - (scanDisp o m : Int) := by
  intro x hx
  simp only [scanIter] at hx
  split at hx
  · rw [scanTest_tested, scanTest_tested] at hx
    simp only [List.mem_append, List.mem_singleton] at hx
    tauto
  · rw [scanTest_tested] at hx
    simp only [List.mem_append, List.mem_singleton] at hx
    tauto

/-- Trace contents of the offset loop after any number of iterations: the
prior trace plus symmetric candidates at wrapped displacements of offsets
that passed the loop guard (hence are at most window). -/
lemma scanLoop_tested (mrO : Int → Bool) (c : Int) (m mp window step : Nat) :
    ∀ (fuel offset : Nat) (st : ScanSt),
      ∀ x ∈ (scanLoop mrO c m mp window step fuel offset st).tested,
        x ∈ st.tested ∨ ∃ o, o ≤ window ∧
          (x = c + (scanDisp o m : Int) ∨ x = c - (scanDisp o m : Int)) := by
  intro fuel
  induction fuel with
  | zero => intro offset st x hx; exact Or.inl hx
  | succ f ih =>
    intro offset st x hx
    unfold scanLoop at hx
    split at hx
    · rename_i hg
      rcases ih _ _ x hx with hx1 | hex
      · rcases scanIter_tested mrO c m mp offset st x hx1 with hx2 | hform
        · exact Or.inl hx2
        · exact Or.inr ⟨offset, hg.1, hform⟩
      · exact Or.inr hex
    · exact Or.inl hx

/-- The wrapped displacement of an offset at most window never exceeds
window times the modulus: below the wrap threshold it equals
offset * modulus, and past it the residue is below 2 to the 64, which the
bound then dominates. -/
lemma scanDisp_le (o window m : Nat) (ho : o ≤ window) :
    scanDisp o m ≤ window * m := by
  have h3 : o * m ≤ window * m := Nat.mul_le_mul_right m ho
  simp only [scanDisp, ULONG_MOD]
  by_cases hcase : o * m < 2 ^ 64
  · rw [Nat.mod_eq_of_lt hcase]; exact h3
  · have h1 : o * m % 2 ^ 64 < 2 ^ 64 := Nat.mod_lt _ (by norm_num)
    omega

/-- Claim C8 (counterexample): scanning center 1 with window 2, step 1 and
wheel offset 1 mod 30 tests the candidate 31, whose distance 30 from the
aligned center exceeds the window 2, refuting that every tested candidate
lies within window of the center. -/
theorem C8_distance_counterexample :
    (31 : Int) ∈ (scan_prime_count (fun _ => false) 1 2 1 30 1 10 10).tested ∧
    alignCenter 1 30 1 = 1 ∧
    ¬ (((31 : Int) - alignCenter 1 30 1).natAbs ≤ 2) := by
  decide

/-- Claim C8 (amended): every candidate tested during a single scan lies
within window times the wheel modulus of the aligned center.  The loop
guard keeps the offset at most window whenever a candidate is built, and
the unsigned-long displacement offset * modulus is then either the exact
product, at most window * modulus, or a wrapped residue below 2 to the 64,
which window * modulus dominates whenever wrapping occurs at all. -/
theorem C8_tested_within_scaled_window (mrO : Int → Bool) (c0 : Int)
    (window step modulus wheelOffset maxPrimes fuel : Nat) :
    ∀ t ∈ (scan_prime_count mrO c0 window step modulus wheelOffset
        maxPrimes fuel).tested,
      (t - alignCenter c0 modulus wheelOffset).natAbs ≤ window * modulus := by
  intro t ht
  unfold scan_prime_count at ht
  rcases scanLoop_tested mrO _ modulus maxPrimes window step fuel 0 _ t ht with
    hx | ⟨o, ho, hform⟩
  · exact absurd hx (by simp)
  · have hb := scanDisp_le o window modulus ho
    rcases hform with rfl | rfl
    · rw [add_sub_cancel_left, Int.natAbs_ofNat]
      exact hb
    · rw [sub_sub_cancel_left, Int.natAbs_neg, Int.natAbs_ofNat]
      exact hb

/-- Witness for C8_tested_within_scaled_window: the tested candidate 31 of
the concrete scan lies within 2 * 30 of the aligned center. -/
theorem C8_tested_within_scaled_window_witness :
    ((31 : Int) - alignCenter 1 30 1).natAbs ≤ 2 * 30 :=
  C8_tested_within_scaled_window (fun _ => false) 1 2 1 30 1 10 10
    31 (by decide)

/-- Claim C9: at index n = 0, z5d_predict_nth_prime,
z5d_predict_nth_prime_ex and z5d_predict_nth_prime_mpz all return -1 and
leave the caller result structure, respectively output integer, exactly as
it was. -/
theorem C9_zero_index_rejected :
    ∀ (predict fallback : Nat → Int) (res : Z5dResult) (out : Int),
      z5d_predict_nth_prime predict 0 res = (-1, res) ∧
      z5d_predict_nth_prime_ex predict 0 res = (-1, res) ∧
      z5d_predict_nth_prime_mpz fallback 0 out = (-1, out) := by
  intro predict fallback res out
  exact ⟨rfl, rfl, rfl⟩

end Z5D
